import Mathlib

/-!
Shallow embedding of the settings / provider-configuration layer of the
screenpipe application shell, together with proofs about the claims of its
specification.  Every definition is translated from a source file of the
repository; the file a definition comes from is named in its doc comment.
-/

namespace Screenpipe

/-- Status enumeration for the locally-managed sidecar process
(`SidecarState`, imported by `src/unnamed/part_000` from
`ai-providers/providers/embedded/provider-metadata`; its four members are
exactly the keys used in the `tooltipTexts` map of `SidecarController`). -/
inductive SidecarState where
  | INACTIVE
  | ACTIVE
  | ERROR
  | UNKNOWN
deriving DecidableEq, Fintype, Repr

/-- Status enumeration for the embedded model's run state (`ModelState`,
imported by `src/unnamed/part_000` from
`ai-providers/providers/embedded/provider-metadata`; its four members are
exactly the keys used in the `tooltipTexts` map of `ModelController`). -/
inductive ModelState where
  | INACTIVE
  | RUNNING
  | ERROR
  | UNKNOWN
deriving DecidableEq, Fintype, Repr

/-- The enumeration of selectable AI providers
(`AvailableAiProviders`, imported from
`ai-providers/types/available-providers`).  The members `EMBEDDED` and
`SCREENPIPE_CLOUD` appear literally in the given sources; the remaining
members stand for the other selectable providers (the custom provider has its
setup form under `ai-providers/providers/custom/`). -/
inductive AvailableAiProviders where
  | SCREENPIPE_CLOUD
  | OPENAI
  | NATIVE_OLLAMA
  | CUSTOM
  | EMBEDDED
deriving DecidableEq, Fintype, Repr

/-- `isPlayButtonDisabled` of `SidecarController`
(`src/unnamed/part_000`, lines 52-58): the start-sidecar button is disabled
when the sidecar is `ACTIVE` or `UNKNOWN`, or when the port form is dirty. -/
def isPlayButtonDisabled (sidecarStatus : SidecarState) (isDirty : Bool) : Bool :=
  if sidecarStatus = SidecarState.ACTIVE ∨ sidecarStatus = SidecarState.UNKNOWN ∨ isDirty then
    true
  else
    false

/-- `isPauseButtonDisabled` of `SidecarController`
(`src/unnamed/part_000`, lines 60-66): the stop-sidecar button is disabled
unless the sidecar is `ACTIVE`. -/
def isPauseButtonDisabled (sidecarStatus : SidecarState) : Bool :=
  if sidecarStatus ≠ SidecarState.ACTIVE then
    true
  else
    false

/-- `selectDisabled` of `ModelController`
(`src/unnamed/part_000`, lines 226-232): the model-select widget is disabled
unless the sidecar is `ACTIVE`. -/
def selectDisabled (sidecarStatus : SidecarState) : Bool :=
  if sidecarStatus ≠ SidecarState.ACTIVE then
    true
  else
    false

/-- `playButtonDisabled` of `ModelController`
(`src/unnamed/part_000`, lines 234-244): the start-model button is disabled
unless the sidecar is `ACTIVE`, and also when the model is `RUNNING` or in
`ERROR`. -/
def playButtonDisabled (sidecarStatus : SidecarState) (modelStatus : ModelState) : Bool :=
  if sidecarStatus ≠ SidecarState.ACTIVE then
    true
  else if modelStatus = ModelState.RUNNING ∨ modelStatus = ModelState.ERROR then
    true
  else
    false

/-- `pauseButtonDisabled` of `ModelController`
(`src/unnamed/part_000`, lines 246-256): the stop-model button is disabled
unless the sidecar is `ACTIVE` and the model is `RUNNING`. -/
def pauseButtonDisabled (sidecarStatus : SidecarState) (modelStatus : ModelState) : Bool :=
  if sidecarStatus ≠ SidecarState.ACTIVE then
    true
  else if modelStatus ≠ ModelState.RUNNING then
    true
  else
    false

/-- The `embeddedLLM` record of the settings store
(written by `handleFormSubmit` and `submitChanges` in
`src/unnamed/part_000`).  Its `port` field is a JavaScript number produced by
`parseInt`; we model it as `Option Int`, `none` standing for `NaN` when the
parse fails. -/
structure EmbeddedLLMSettings where
  port : Option Int
  model : String
  enabled : Bool
deriving DecidableEq, Repr

/-- The slice of the persisted `Settings` record that the given sources read
or write: the active provider type, the custom-provider fields named by
`ai-providers/providers/custom/setup-form.ts`, and the `embeddedLLM`
record. -/
structure Settings where
  aiProviderType : AvailableAiProviders
  aiUrl : String
  aiModel : String
  customPrompt : String
  aiMaxContextChars : Int
  embeddedLLM : EmbeddedLLMSettings
deriving DecidableEq, Repr

/-- A `Partial<Settings>` value as passed to `updateSettings`: every field is
optional, and only the present fields are written. -/
structure PartialSettings where
  aiProviderType : Option AvailableAiProviders := none
  aiUrl : Option String := none
  aiModel : Option String := none
  customPrompt : Option String := none
  aiMaxContextChars : Option Int := none
  embeddedLLM : Option EmbeddedLLMSettings := none
deriving DecidableEq, Repr

/-- The settings-persistence write `updateSettings({...values})`
(the `useSettings` store collaborator): spread the present fields of the
partial value over the stored record, leaving absent fields unchanged. -/
def updateSettings (s : Settings) (p : PartialSettings) : Settings :=
  { aiProviderType := p.aiProviderType.getD s.aiProviderType
    aiUrl := p.aiUrl.getD s.aiUrl
    aiModel := p.aiModel.getD s.aiModel
    customPrompt := p.customPrompt.getD s.customPrompt
    aiMaxContextChars := p.aiMaxContextChars.getD s.aiMaxContextChars
    embeddedLLM := p.embeddedLLM.getD s.embeddedLLM }

/-- JavaScript `parseInt(s, 10)`: skip leading whitespace, read an optional
sign and then the longest prefix of decimal digits; yield `NaN` (modelled as
`none`) when no digit is read, and ignore any trailing characters. -/
def parseInt10 (s : String) : Option Int :=
  let cs := s.data.dropWhile (fun c => c = ' ' ∨ c = '\t' ∨ c = '\n' ∨ c = '\r')
  let signAndRest : Int × List Char :=
    match cs with
    | '-' :: r => (-1, r)
    | '+' :: r => (1, r)
    | r => (1, r)
  let digits := signAndRest.2.takeWhile Char.isDigit
  if digits.isEmpty then
    none
  else
    some (signAndRest.1 * Int.ofNat (digits.foldl (fun acc c => acc * 10 + (c.toNat - 48)) 0))

/-- `handleFormSubmit` of `SidecarController`
(`src/unnamed/part_000`, lines 91-103): the sidecar port form submits an
`embeddedLLM` record whose port is `parseInt(values.port, 10)`, whose model is
the model already stored in settings, and whose `enabled` flag is `true`.
The subsequent `form.reset` touches only form state, not settings. -/
def handleFormSubmit (settings : Settings) (portValue : String) : Settings :=
  updateSettings settings
    { embeddedLLM := some
        { port := parseInt10 portValue
          model := settings.embeddedLLM.model
          enabled := true } }

/-- One toast notification as raised by the `toast` collaborator. -/
structure Toast where
  title : String
  description : Option String := none
  variant : Option String := none
deriving DecidableEq, Repr

/-- The `onError` handler of the `updateSettingsAsync` mutation of
`RegularProviderSetupForm`
(`src/screenpipe-app-tauri/modules/settings/components/ai-section/provider-setup-forms.tsx`,
lines 55-61), applied to the error's message: a destructive toast whose
description is the message when it is truthy (non-empty) and the generic
retry text otherwise. -/
def aiProviderUpdateOnError (message : String) : Toast :=
  { title := "ai provider update failed!"
    description := some (if message = "" then "please try again." else message)
    variant := some "destructive" }

/-- The `onError` handler of the `credentialValidation` mutation of
`RegularProviderSetupForm` (`provider-setup-forms.tsx`, lines 82-88),
applied to the error's message. -/
def credentialValidationOnError (message : String) : Toast :=
  { title := "credential validation failed!"
    description := some (if message = "" then "please try again." else message)
    variant := some "destructive" }

/-- The `onError` handler of the `updateSettingsAsync` mutation of
`SidecarController` (`src/unnamed/part_000`, lines 82-88), applied to the
error's message. -/
def sidecarPortUpdateOnError (message : String) : Toast :=
  { title := "form submission failed!"
    description := some (if message = "" then "please try again." else message)
    variant := some "destructive" }

/-- The observable steps of one run of `submitChanges`: the invocation of the
`credentialValidation` mutation, and the settings-persistence write performed
by `updateSettingsAsync`. -/
inductive SubmitEvent where
  | credentialValidationCall
  | settingsWrite
deriving DecidableEq, Repr

/-- The result of one run of `submitChanges`: the ordered list of observable
steps, the persisted settings record afterwards, and the error it rejected
with, if any. -/
structure SubmitOutcome where
  events : List SubmitEvent
  settings : Settings
  error : Option String
deriving Repr

/-- The `mutationFn` of the `credentialValidation` mutation
(`provider-setup-forms.tsx`, lines 64-89): when the selected provider
declares a `credentialValidation` collaborator it is awaited (a thrown error
is rethrown as `new Error(e.message)`, so the mutation rejects with the same
message); when the provider declares none the mutation resolves at once. -/
def credentialValidationMutation
    (validator : Option (PartialSettings → Except String Unit))
    (values : PartialSettings) : Except String Unit :=
  match validator with
  | none => Except.ok ()
  | some v => v values

/-- `submitChanges` of `RegularProviderSetupForm`
(`provider-setup-forms.tsx`, lines 99-113).  For a provider other than
`EMBEDDED` it awaits the `credentialValidation` mutation and only then writes
`{...values, aiProviderType: aiProvider}` through `updateSettingsAsync`;
a rejection of the validation mutation propagates, so the write never runs
and the stored record is unchanged.  For `EMBEDDED` it writes the values as
the `embeddedLLM` record without validating. -/
def submitChanges
    (aiProvider : AvailableAiProviders)
    (validator : Option (PartialSettings → Except String Unit))
    (settings : Settings)
    (values : PartialSettings) : SubmitOutcome :=
  if aiProvider ≠ AvailableAiProviders.EMBEDDED then
    match credentialValidationMutation validator values with
    | Except.error e =>
        { events := [SubmitEvent.credentialValidationCall]
          settings := settings
          error := some e }
    | Except.ok () =>
        { events := [SubmitEvent.credentialValidationCall, SubmitEvent.settingsWrite]
          settings := updateSettings settings { values with aiProviderType := some aiProvider }
          error := none }
  else
    { events := [SubmitEvent.settingsWrite]
      settings := updateSettings settings { embeddedLLM := values.embeddedLLM }
      error := none }

/-- An authenticated user session as exposed by the `useUser` collaborator;
only its presence or absence matters to the given sources. -/
structure User where
  id : String
deriving DecidableEq, Repr

/-- The pair of visibility flags computed by `componentsVisibility`
(`provider-setup-forms.tsx`, lines 91-97).  The source's second branch
returns `{showForm: true}` with no `showLoginStep` property; the JSX guard
`componentsVisibility.showLoginStep && ...` treats the absent property as
false, which the model makes explicit. -/
structure ComponentsVisibility where
  showForm : Bool
  showLoginStep : Bool
deriving DecidableEq, Repr

/-- `componentsVisibility` of `RegularProviderSetupForm`
(`provider-setup-forms.tsx`, lines 91-97): hide the form and show the login
step exactly when the selected provider is `SCREENPIPE_CLOUD` and there is no
authenticated user. -/
def componentsVisibility (aiProvider : AvailableAiProviders) (user : Option User) :
    ComponentsVisibility :=
  if aiProvider = AvailableAiProviders.SCREENPIPE_CLOUD ∧ user = none then
    { showForm := false, showLoginStep := true }
  else
    { showForm := true, showLoginStep := false }

/-- An invocation of the OS-level shell-opening capability
(`open` from the tauri shell plugin). -/
inductive ShellAction where
  | openUrl (url : String)
deriving DecidableEq, Repr

/-- The `onClick` handler of the login button
(`provider-setup-forms.tsx`, line 125): open the login URL through the
OS-level shell-opening capability. -/
def loginButtonOnClick : ShellAction :=
  ShellAction.openUrl "https://screenpi.pe/login"

/-- Whether the login step is rendered (`provider-setup-forms.tsx`,
lines 117-131): the block is guarded by `componentsVisibility.showLoginStep`. -/
def loginStepRendered (vis : ComponentsVisibility) : Bool :=
  vis.showLoginStep

/-- Whether the setup form is rendered (`provider-setup-forms.tsx`,
lines 133-143): the block is guarded by
`data?.setupForm && componentsVisibility.showForm`; `setupFormLoaded` is the
truthiness of `data?.setupForm`. -/
def formRendered (setupFormLoaded : Bool) (vis : ComponentsVisibility) : Bool :=
  setupFormLoaded && vis.showForm

/-- The widget types appearing in the given field schemas
(`form/entities/field/field-metadata`). -/
inductive FieldType where
  | STRING
  | SELECT
  | SELECT_CREATEABLE
  | TEXTAREA
  | SLIDER
deriving DecidableEq, Repr

/-- The `validationMeta` of a field descriptor: error message, minimum and
maximum length, and the required/optional flag. -/
structure ValidationMeta where
  errorMessage : Option String := none
  min : Option Nat := none
  max : Option Nat := none
  optional : Bool
deriving DecidableEq, Repr

/-- The `typeMeta` of a field descriptor: whether the field is a regular
input, its widget type, and the select options (value/label pairs). -/
structure TypeMeta where
  isRegular : Bool
  type : FieldType
  options : List (String × String) := []
deriving DecidableEq, Repr

/-- A declarative form-field descriptor (`FieldSchema` of
`form/entities/field/field-metadata`, as instantiated by the given setup
forms). -/
structure FieldSchema where
  key : String
  title : String
  placeholder : Option String := none
  validationMeta : ValidationMeta
  typeMeta : TypeMeta
deriving DecidableEq, Repr

/-- A declarative form schema (`FormSchema` of `form/entities/form`, as
instantiated by the given setup forms). -/
structure FormSchema where
  title : String
  fields : List FieldSchema
  buttonText : String
deriving DecidableEq, Repr

/-- The endpoint-url field descriptor of the custom-provider setup form
(`src/screenpipe-app-tauri/modules/ai-providers/providers/custom/setup-form.ts`,
lines 5-18): key `aiUrl`, required, minimum length 1, maximum length 50. -/
def endpointUrlField : FieldSchema :=
  { key := "aiUrl"
    title := "endpoint url"
    validationMeta :=
      { errorMessage := some "this field is mandatory"
        min := some 1
        max := some 50
        optional := false }
    typeMeta :=
      { isRegular := true
        type := FieldType.STRING } }

/-- The `fields` array of the custom-provider setup form
(`custom/setup-form.ts`, lines 4-58). -/
def customSetupFormFields : List FieldSchema :=
  [ endpointUrlField,
    { key := "aiModel"
      title := "ai model"
      placeholder := some "type model name"
      validationMeta := { optional := false }
      typeMeta :=
        { isRegular := false
          type := FieldType.SELECT_CREATEABLE
          options := [] } },
    { key := "customPrompt"
      title := "prompt"
      placeholder := some "enter your custom prompt here"
      validationMeta :=
        { optional := false
          errorMessage := some "you need to provide a custom prompt" }
      typeMeta :=
        { isRegular := true
          type := FieldType.TEXTAREA } },
    { key := "aiMaxContextChars"
      title := "max content"
      validationMeta :=
        { optional := false
          errorMessage := some "you need to provide a custom prompt" }
      typeMeta :=
        { isRegular := true
          type := FieldType.SLIDER } } ]

/-- `CustomSetupForm` of `custom/setup-form.ts` (lines 60-64). -/
def CustomSetupForm : FormSchema :=
  { title := "configuration"
    fields := customSetupFormFields
    buttonText := "submit changes" }

/-- Modelled from the spec: the validator that `generateFormSchema`
(`form/utils/zod-schema-generator`, called at `src/unnamed/part_002` line 44
but not itself present under `src/`) derives from a string field's
`validationMeta`.  Per the spec, the pipeline performs "basic validation
(required/optional, min/max length)" and "a required field rejects empty
input": a string value is accepted iff it is non-empty when the field is
required, at least `min` characters when a minimum is declared, and at most
`max` characters when a maximum is declared. -/
def validateStringField (vm : ValidationMeta) (value : String) : Bool :=
  (vm.optional || decide (1 ≤ value.length)) &&
    (match vm.min with
     | none => true
     | some m => decide (m ≤ value.length)) &&
    (match vm.max with
     | none => true
     | some m => decide (value.length ≤ m))

/-- The named error conditions of the CLI error module
(`src/unnamed/part_003`, `ERRORS`, lines 35-42). -/
inductive ErrorCondition where
  | MISSING_DIR_OR_EMPTY_PIPE
  | EXISTING_CONFIG
  | MISSING_CONFIG
  | FAILED_CONFIG_READ
  | COMPONENT_NOT_FOUND
  | BUILD_MISSING_REGISTRY_FILE
deriving DecidableEq, Fintype, Repr

/-- The `ERRORS` mapping of the CLI error module
(`src/unnamed/part_003`, lines 35-42): each named error condition is bound to
a fixed error-code string. -/
def ERRORS : ErrorCondition → String
  | ErrorCondition.MISSING_DIR_OR_EMPTY_PIPE => "1"
  | ErrorCondition.EXISTING_CONFIG => "2"
  | ErrorCondition.MISSING_CONFIG => "3"
  | ErrorCondition.FAILED_CONFIG_READ => "4"
  | ErrorCondition.COMPONENT_NOT_FOUND => "5"
  | ErrorCondition.BUILD_MISSING_REGISTRY_FILE => "6"

/-- The shapes of value `handleError` can receive: a plain string, a zod
validation error (flattened to per-field messages), an `Error` instance, or
anything else. -/
inductive HandleErrorInput where
  | str (s : String)
  | zodError (fieldErrors : List (String × String))
  | error (message : String)
  | other
deriving DecidableEq, Repr

/-- What one call of `handleError` does: the lines it logs and the exit code
it terminates the process with (`none` would mean the process keeps
running). -/
structure HandleErrorOutcome where
  loggedLines : List String
  exitCode : Option Nat
deriving DecidableEq, Repr

/-- `handleError` of the CLI error module (`src/unnamed/part_003`,
lines 4-33): log two fixed lines and a blank line, then log the error's
content according to its shape, and terminate the process with exit code 1 in
every case. -/
def handleError (input : HandleErrorInput) : HandleErrorOutcome :=
  let intro : List String :=
    [ "Something went wrong. Please check the error below for more details.",
      "If the problem persists, please open an issue on GitHub.",
      "" ]
  match input with
  | HandleErrorInput.str s =>
      { loggedLines := intro ++ [s], exitCode := some 1 }
  | HandleErrorInput.zodError fieldErrors =>
      { loggedLines :=
          intro ++ ["Validation failed:"] ++
            fieldErrors.map (fun kv => "- " ++ kv.1 ++ ": " ++ kv.2)
        exitCode := some 1 }
  | HandleErrorInput.error message =>
      { loggedLines := intro ++ [message], exitCode := some 1 }
  | HandleErrorInput.other =>
      { loggedLines := intro, exitCode := some 1 }

/-- The slide identifiers of the onboarding flow (`SlideKey`, imported by
`components/onboarding/context.tsx` from `./flow`, which is not under
`src/`); modelled as strings since only the type is needed here. -/
def SlideKey := String

/-- The onboarding context record (`OnboardingContextType` of
`src/screenpipe-app-tauri/components/onboarding/context.tsx`, lines 7-25).
State fields keep their source types; the callback fields are functions whose
behaviour lives in hooks outside the given sources, so only their presence is
modelled. -/
structure OnboardingContextType where
  showOnboarding : Bool
  selectedOptions : List String
  selectedPersonalization : Option String
  selectedPreference : Option String
  setSelectedOptions : List String → Unit
  setSelectedPersonalization : Option String → Unit
  setSelectedPreference : Option String → Unit
  setShowOnboardingToFalse : Unit → Unit
  setShowOnboardingToTrue : Unit → Unit
  currentSlide : SlideKey
  error : Option String
  handleNextSlide : Unit → Unit
  handlePrevSlide : Unit → Unit
  skipOnboarding : Unit → Unit
  completeOnboarding : Unit → Unit
  handleEnd : Unit → Unit
  setRestartPending : Unit → Unit

/-- `useOnboarding` of `components/onboarding/context.tsx` (lines 95-101):
read the context value; when it is `undefined` (no enclosing
`OnboardingProvider`, the default of `createContext`) throw, otherwise return
the context unchanged. -/
def useOnboarding (context : Option OnboardingContextType) :
    Except String OnboardingContextType :=
  match context with
  | none => Except.error "useOnboarding must be used within an OnboardingProvider"
  | some ctx => Except.ok ctx

/-- A concrete `embeddedLLM` record used to evaluate the model on explicit
inputs. -/
def sampleEmbeddedLLM : EmbeddedLLMSettings :=
  { port := some 11438, model := "llama3.2:1b", enabled := false }

/-- A concrete settings record used to evaluate the model on explicit
inputs. -/
def sampleSettings : Settings :=
  { aiProviderType := AvailableAiProviders.OPENAI
    aiUrl := "https://api.openai.com/v1"
    aiModel := "gpt-4o"
    customPrompt := ""
    aiMaxContextChars := 8000
    embeddedLLM := sampleEmbeddedLLM }

/-- A provider credential-validation collaborator that rejects, used to
evaluate the model on explicit inputs. -/
def rejectingValidator : Option (PartialSettings → Except String Unit) :=
  some (fun _ => Except.error "invalid api key")

/-- The empty `Partial<Settings>` value. -/
def noValues : PartialSettings := {}

/-- A concrete 51-character string, used to evaluate the endpoint-url
validator above its maximum length. -/
def longUrlSample : String := String.mk (List.replicate 51 'a')

/-- C1: for every submission with a selected provider other than `EMBEDDED`,
`submitChanges` runs the credential-validation mutation first (it is the head
of the event trace); when validation rejects, no settings write occurs and
the persisted record is unchanged; when validation succeeds, the persisted
record has `aiProviderType` set to the selected provider. -/
theorem submitChanges_validates_before_write
    (aiProvider : AvailableAiProviders)
    (validator : Option (PartialSettings → Except String Unit))
    (settings : Settings) (values : PartialSettings)
    (hp : aiProvider ≠ AvailableAiProviders.EMBEDDED) :
    ((submitChanges aiProvider validator settings values).events.head? =
      some SubmitEvent.credentialValidationCall) ∧
    (∀ e, credentialValidationMutation validator values = Except.error e →
      (submitChanges aiProvider validator settings values).settings = settings ∧
      SubmitEvent.settingsWrite ∉ (submitChanges aiProvider validator settings values).events) ∧
    (credentialValidationMutation validator values = Except.ok () →
      (submitChanges aiProvider validator settings values).settings.aiProviderType =
        aiProvider) := by
  cases hv : credentialValidationMutation validator values with
  | error e =>
      refine ⟨?_, ?_, ?_⟩ <;> simp [submitChanges, hp, hv, updateSettings]
  | ok u =>
      cases u
      refine ⟨?_, ?_, ?_⟩ <;> simp [submitChanges, hp, hv, updateSettings]

/-- C1 witness: the theorem evaluated at the `OPENAI` provider, a rejecting
credential validator, the sample settings record and the empty partial
value. -/
theorem submitChanges_validates_before_write_witness :
    (AvailableAiProviders.OPENAI ≠ AvailableAiProviders.EMBEDDED) ∧
    (((submitChanges AvailableAiProviders.OPENAI rejectingValidator sampleSettings
        noValues).events.head? = some SubmitEvent.credentialValidationCall) ∧
     (∀ e, credentialValidationMutation rejectingValidator noValues = Except.error e →
       (submitChanges AvailableAiProviders.OPENAI rejectingValidator sampleSettings
         noValues).settings = sampleSettings ∧
       SubmitEvent.settingsWrite ∉
         (submitChanges AvailableAiProviders.OPENAI rejectingValidator sampleSettings
           noValues).events) ∧
     (credentialValidationMutation rejectingValidator noValues = Except.ok () →
       (submitChanges AvailableAiProviders.OPENAI rejectingValidator sampleSettings
         noValues).settings.aiProviderType = AvailableAiProviders.OPENAI)) :=
  ⟨by decide,
   submitChanges_validates_before_write AvailableAiProviders.OPENAI rejectingValidator
     sampleSettings noValues (by decide)⟩

/-- C2 counterexample: it is not the case that each of the four control
buttons' disabled flags is purely a function of the sidecar status and the
model status — the start-sidecar flag also reads the port form's dirty flag
(`isPlayButtonDisabled SidecarState.INACTIVE false = false` while
`isPlayButtonDisabled SidecarState.INACTIVE true = true`). -/
theorem buttonDisabled_not_pure_in_statuses :
    ¬ ((∃ f : SidecarState → ModelState → Bool,
          ∀ (s : SidecarState) (m : ModelState) (d : Bool),
            isPlayButtonDisabled s d = f s m) ∧
       (∃ f : SidecarState → ModelState → Bool,
          ∀ (s : SidecarState) (m : ModelState) (d : Bool),
            isPauseButtonDisabled s = f s m) ∧
       (∃ f : SidecarState → ModelState → Bool,
          ∀ (s : SidecarState) (m : ModelState) (d : Bool),
            playButtonDisabled s m = f s m) ∧
       (∃ f : SidecarState → ModelState → Bool,
          ∀ (s : SidecarState) (m : ModelState) (d : Bool),
            pauseButtonDisabled s m = f s m)) := by
  rintro ⟨⟨f, hf⟩, -, -, -⟩
  have h1 := hf SidecarState.INACTIVE ModelState.INACTIVE false
  have h2 := hf SidecarState.INACTIVE ModelState.INACTIVE true
  exact absurd (h1.trans h2.symm) (by decide)

/-- C2 amended: the stop-sidecar, start-model and stop-model disabled flags
are purely functions of the two polled statuses; the start-sidecar disabled
flag is purely a function of the sidecar status and the port-form dirty flag
(the model status does not affect it). -/
theorem buttonDisabled_pure_amended :
    (∃ g : SidecarState → Bool → Bool,
       ∀ (s : SidecarState) (m : ModelState) (d : Bool),
         isPlayButtonDisabled s d = g s d) ∧
    (∃ f : SidecarState → ModelState → Bool,
       ∀ (s : SidecarState) (m : ModelState) (d : Bool),
         isPauseButtonDisabled s = f s m) ∧
    (∃ f : SidecarState → ModelState → Bool,
       ∀ (s : SidecarState) (m : ModelState) (d : Bool),
         playButtonDisabled s m = f s m) ∧
    (∃ f : SidecarState → ModelState → Bool,
       ∀ (s : SidecarState) (m : ModelState) (d : Bool),
         pauseButtonDisabled s m = f s m) :=
  ⟨⟨isPlayButtonDisabled, fun _ _ _ => rfl⟩,
   ⟨fun s _ => isPauseButtonDisabled s, fun _ _ _ => rfl⟩,
   ⟨playButtonDisabled, fun _ _ _ => rfl⟩,
   ⟨pauseButtonDisabled, fun _ _ _ => rfl⟩⟩

/-- C3: the model-panel widgets are a fixed derived mapping of the two polled
statuses: the start-model button is enabled exactly when the sidecar is
`ACTIVE` and the model is neither `RUNNING` nor `ERROR`; the stop-model
button is enabled exactly when the sidecar is `ACTIVE` and the model is
`RUNNING`; the model-select widget is disabled exactly when the sidecar is
not `ACTIVE`. -/
theorem modelPanel_derived_mapping :
    ∀ (s : SidecarState) (m : ModelState),
      (playButtonDisabled s m = false ↔
        s = SidecarState.ACTIVE ∧ m ≠ ModelState.RUNNING ∧ m ≠ ModelState.ERROR) ∧
      (pauseButtonDisabled s m = false ↔
        s = SidecarState.ACTIVE ∧ m = ModelState.RUNNING) ∧
      (selectDisabled s = true ↔ s ≠ SidecarState.ACTIVE) := by
  decide

/-- C4 counterexample: the provided material does define a fixed mapping from
named error conditions to distinct error codes — the six codes of `ERRORS`
are pairwise distinct — and the `handleError` path does more than show a
transient notification: at the concrete input `"boom"` it terminates the
process with exit code 1. -/
theorem errorTaxonomy_exists_counterexample :
    ((([ErrorCondition.MISSING_DIR_OR_EMPTY_PIPE, ErrorCondition.EXISTING_CONFIG,
        ErrorCondition.MISSING_CONFIG, ErrorCondition.FAILED_CONFIG_READ,
        ErrorCondition.COMPONENT_NOT_FOUND,
        ErrorCondition.BUILD_MISSING_REGISTRY_FILE] : List ErrorCondition).map
          ERRORS).Nodup) ∧
    (handleError (HandleErrorInput.str "boom")).exitCode = some 1 := by
  decide

/-- C4 amended: the CLI module of `src/unnamed/part_003` defines `ERRORS`, a
fixed injective mapping from six named error conditions to distinct error
codes, and every `handleError` path logs and terminates the process with exit
code 1 — beyond a transient notification; no retry policy or recovery logic
exists. -/
theorem errorTaxonomy_amended :
    (∀ a b : ErrorCondition, ERRORS a = ERRORS b → a = b) ∧
    (∀ i : HandleErrorInput, (handleError i).exitCode = some 1) := by
  refine ⟨by decide, ?_⟩
  intro i
  cases i <;> rfl

/-- C5: with the setup-form schema loaded, the form is hidden and the login
step shown exactly when the selected provider is `SCREENPIPE_CLOUD` and
there is no authenticated user; in every other case the form is shown and no
login step appears; and the login button opens the login URL through the
OS-level shell-opening capability. -/
theorem loginStep_iff_cloud_without_user :
    ∀ (p : AvailableAiProviders) (u : Option User),
      (formRendered true (componentsVisibility p u) = false ∧
         loginStepRendered (componentsVisibility p u) = true ↔
       p = AvailableAiProviders.SCREENPIPE_CLOUD ∧ u = none) ∧
      (formRendered true (componentsVisibility p u) = true ∧
         loginStepRendered (componentsVisibility p u) = false ↔
       ¬(p = AvailableAiProviders.SCREENPIPE_CLOUD ∧ u = none)) ∧
      loginButtonOnClick = ShellAction.openUrl "https://screenpi.pe/login" := by
  intro p u
  by_cases h : p = AvailableAiProviders.SCREENPIPE_CLOUD ∧ u = none <;>
    simp [componentsVisibility, formRendered, loginStepRendered, loginButtonOnClick, h]

/-- C6: every field of the custom-provider setup form is declared required,
and the validator derived from the endpoint-url descriptor rejects the empty
string and every string longer than 50 characters. -/
theorem customForm_required_and_url_bounds (s : String) (h : 50 < s.length) :
    (∀ f ∈ CustomSetupForm.fields, f.validationMeta.optional = false) ∧
    validateStringField endpointUrlField.validationMeta "" = false ∧
    validateStringField endpointUrlField.validationMeta s = false := by
  refine ⟨by decide, by decide, ?_⟩
  simp [validateStringField, endpointUrlField]
  omega

/-- C6 witness: the theorem evaluated at a concrete 51-character string. -/
theorem customForm_required_and_url_bounds_witness :
    (50 < longUrlSample.length) ∧
    ((∀ f ∈ CustomSetupForm.fields, f.validationMeta.optional = false) ∧
     validateStringField endpointUrlField.validationMeta "" = false ∧
     validateStringField endpointUrlField.validationMeta longUrlSample = false) :=
  ⟨by decide, customForm_required_and_url_bounds longUrlSample (by decide)⟩

/-- C7: each of the three failed-mutation handlers (provider settings update,
credential validation, sidecar port update) raises a destructive toast whose
description is the error's message when it is non-empty and the generic
retry text `"please try again."` otherwise. -/
theorem failedMutation_toast_shape :
    ∀ (message : String),
      (aiProviderUpdateOnError message).variant = some "destructive" ∧
      (aiProviderUpdateOnError message).description =
        some (if message = "" then "please try again." else message) ∧
      (credentialValidationOnError message).variant = some "destructive" ∧
      (credentialValidationOnError message).description =
        some (if message = "" then "please try again." else message) ∧
      (sidecarPortUpdateOnError message).variant = some "destructive" ∧
      (sidecarPortUpdateOnError message).description =
        some (if message = "" then "please try again." else message) :=
  fun _ => ⟨rfl, rfl, rfl, rfl, rfl, rfl⟩

/-- C8: for every combination of sidecar status, model status and port-form
dirty flag, the start and stop buttons of the same panel are never both
enabled. -/
theorem startStop_never_both_enabled :
    ∀ (s : SidecarState) (m : ModelState) (d : Bool),
      ¬(isPlayButtonDisabled s d = false ∧ isPauseButtonDisabled s = false) ∧
      ¬(playButtonDisabled s m = false ∧ pauseButtonDisabled s m = false) := by
  decide

/-- C9: every submission of the sidecar port form writes an `embeddedLLM`
record whose port is the base-10 parse of the entered string, whose model is
the model already stored, and whose `enabled` flag is `true`; every other
settings field is unchanged. -/
theorem portFormSubmit_writes_embeddedLLM_only :
    ∀ (settings : Settings) (portValue : String),
      (handleFormSubmit settings portValue).embeddedLLM =
        { port := parseInt10 portValue
          model := settings.embeddedLLM.model
          enabled := true } ∧
      (handleFormSubmit settings portValue).aiProviderType = settings.aiProviderType ∧
      (handleFormSubmit settings portValue).aiUrl = settings.aiUrl ∧
      (handleFormSubmit settings portValue).aiModel = settings.aiModel ∧
      (handleFormSubmit settings portValue).customPrompt = settings.customPrompt ∧
      (handleFormSubmit settings portValue).aiMaxContextChars =
        settings.aiMaxContextChars :=
  fun _ _ => ⟨rfl, rfl, rfl, rfl, rfl, rfl⟩

/-- C10: `useOnboarding` throws exactly when the context value is `undefined`
(no enclosing `OnboardingProvider`); under a provider it returns the full
onboarding context unchanged and never throws. -/
theorem useOnboarding_throws_iff_no_provider :
    ∀ (context : Option OnboardingContextType),
      ((∃ msg, useOnboarding context = Except.error msg) ↔ context = none) ∧
      (∀ ctx, useOnboarding (some ctx) = Except.ok ctx) := by
  intro context
  refine ⟨⟨?_, ?_⟩, fun ctx => rfl⟩
  · rintro ⟨msg, hmsg⟩
    cases context with
    | none => rfl
    | some ctx => exact Except.noConfusion hmsg
  · rintro rfl
    exact ⟨"useOnboarding must be used within an OnboardingProvider", rfl⟩

end Screenpipe
